import Mathlib

/-!
Shallow embedding of the macro-data aggregation endpoint of this
repository (the serverless function in `api/macro-data.js`): the FRED
observation transforms, the metrics assembler, the single-slot
15-minute cache and the HTTP handler, together with theorems settling
the specification claims against this embedding.

Modelling conventions: JavaScript numbers are modelled as exact
rationals plus a NaN marker; `null`/`undefined` become `Option.none`;
thrown exceptions become `Except String`; `x.toFixed(n)` followed by
`parseFloat` becomes rounding half toward positive infinity at `n`
decimal digits on rationals.
-/

namespace Aggregator

/-- A JavaScript number: an exact rational or NaN.  Infinities never
arise on the paths modelled here (every division in the source is
guarded by a falsiness check that excludes a zero divisor), so they
are not represented. -/
inductive JSNum where
  | num (q : ℚ)
  | nan
deriving DecidableEq

/-- `parseFloat(x.toFixed(2))` on a rational: round half toward
positive infinity at two decimal digits. -/
def toFixed2 (q : ℚ) : ℚ := (Int.floor (q * 100 + 1 / 2) : ℚ) / 100

/-- `parseFloat(x.toFixed(1))` on a rational: round half toward
positive infinity at one decimal digit. -/
def toFixed1 (q : ℚ) : ℚ := (Int.floor (q * 10 + 1 / 2) : ℚ) / 10

/-- JavaScript `Math.round`: round half toward positive infinity. -/
def mathRound (q : ℚ) : ℤ := Int.floor (q + 1 / 2)

/-- Read a maximal run of decimal digits, returning their values and
the rest of the input. -/
def readDigits : List Char → List ℕ × List Char
  | c :: rest =>
    if c.isDigit then
      let p := readDigits rest
      ((c.toNat - '0'.toNat) :: p.1, p.2)
    else ([], c :: rest)
  | [] => ([], [])

/-- Digits to the natural number they denote, most significant first. -/
def digitsToNat (ds : List ℕ) : ℕ := ds.foldl (fun a d => 10 * a + d) 0

/-- JavaScript `parseFloat`: skip leading whitespace, read an optional
sign, a decimal mantissa and an optional exponent, ignoring trailing
garbage; NaN when no digit is found.  (The `Infinity` literal, which
never occurs in FRED observation values, is not modelled and falls to
NaN.) -/
def jsParseFloat (s : String) : JSNum :=
  let cs := s.toList.dropWhile fun c =>
    c == ' ' || c == '\t' || c == '\n' || c == '\r'
  let sp : ℚ × List Char :=
    match cs with
    | '+' :: r => (1, r)
    | '-' :: r => (-1, r)
    | r => (1, r)
  let ip := readDigits sp.2
  let fp : List ℕ × List Char :=
    match ip.2 with
    | '.' :: r => readDigits r
    | r => ([], r)
  if ip.1.isEmpty ∧ fp.1.isEmpty then JSNum.nan
  else
    let mant : ℚ := (digitsToNat ip.1 : ℚ) + (digitsToNat fp.1 : ℚ) / 10 ^ fp.1.length
    let e : ℤ :=
      match fp.2 with
      | c :: r =>
        if c == 'e' || c == 'E' then
          let se : ℤ × List Char :=
            match r with
            | '+' :: r2 => (1, r2)
            | '-' :: r2 => (-1, r2)
            | r2 => (1, r2)
          let ed := readDigits se.2
          if ed.1.isEmpty then 0 else se.1 * (digitsToNat ed.1 : ℤ)
        else 0
      | [] => 0
    JSNum.num (sp.1 * mant * (10 : ℚ) ^ e)

/-- One FRED observation as consumed by the endpoint: a date string
and a raw value string. -/
structure Obs where
  date : String
  value : String
deriving DecidableEq

/-- `parseValue` from the source: null for a falsy argument (absent
value or empty string) and for the dot sentinel, otherwise
`parseFloat`.  The argument is `none` when the source passes
`undefined` (an out-of-range optional-chained element). -/
def parseValue (value : Option String) : Option JSNum :=
  match value with
  | none => none
  | some v => if v = "" ∨ v = "." then none else some (jsParseFloat v)

/-- `calculateChange` from the source: null when either argument is
falsy (null, zero or NaN), otherwise the difference rounded to two
decimals. -/
def calculateChange (current previous : Option JSNum) : Option JSNum :=
  match current, previous with
  | some (JSNum.num c), some (JSNum.num p) =>
    if c = 0 ∨ p = 0 then none else some (JSNum.num (toFixed2 (c - p)))
  | _, _ => none

/-- `calculateYoYChange` from the source: null for a null list or
fewer than 13 observations; parse the observations at indices 0 and
12; null when either parse is falsy (null, zero or NaN); otherwise
the percentage change rounded to two decimals. -/
def calculateYoYChange (observations : Option (List Obs)) : Option JSNum :=
  match observations with
  | none => none
  | some obs =>
    if obs.length < 13 then none
    else
      match parseValue ((obs.get? 0).map Obs.value),
            parseValue ((obs.get? 12).map Obs.value) with
      | some (JSNum.num current), some (JSNum.num yearAgo) =>
        if current = 0 ∨ yearAgo = 0 then none
        else some (JSNum.num (toFixed2 ((current - yearAgo) / yearAgo * 100)))
      | _, _ => none

/-- `calculateMoMChange` from the source: as `calculateYoYChange` but
over indices 0 and 1 with a two-element minimum. -/
def calculateMoMChange (observations : Option (List Obs)) : Option JSNum :=
  match observations with
  | none => none
  | some obs =>
    if obs.length < 2 then none
    else
      match parseValue ((obs.get? 0).map Obs.value),
            parseValue ((obs.get? 1).map Obs.value) with
      | some (JSNum.num current), some (JSNum.num lastMonth) =>
        if current = 0 ∨ lastMonth = 0 then none
        else some (JSNum.num (toFixed2 ((current - lastMonth) / lastMonth * 100)))
      | _, _ => none

/-- One published indicator: a value, its period-over-period
change, and (for the index-style series) the raw index value.
The source omits the `raw` key on rate-style entries; an absent key
and a null key are both modelled as `none`, a distinction no claim
depends on. -/
structure MetricEntry where
  value : Option JSNum
  change : Option JSNum
  raw : Option JSNum := none
deriving DecidableEq

/-- The `inflationSurprise` derived entry: its value is always a
number in the source (a default constant replaces a falsy input), and
it carries the fixed expected-inflation constant. -/
structure SurpriseEntry where
  value : JSNum
  expected : ℚ
deriving DecidableEq

/-- The flat metrics map of the response body. -/
structure Metrics where
  cpi : MetricEntry
  coreCPI : MetricEntry
  fedRate : MetricEntry
  treasury10y : MetricEntry
  unemployment : MetricEntry
  wageGrowth : MetricEntry
  realEarningsGrowth : MetricEntry
  sp500PE : MetricEntry
deriving DecidableEq

/-- The derived metrics map of the response body. -/
structure Derived where
  realRate : MetricEntry
  inflationMomentum : MetricEntry
  inflationSurprise : SurpriseEntry
deriving DecidableEq

/-- One point of the inflation chart history. -/
structure HistoryPointInflation where
  month : String
  cpi : Option JSNum
  core : Option JSNum
deriving DecidableEq

/-- One point of the rates chart history. -/
structure HistoryPointRates where
  month : String
  rate : Option JSNum
  yield : Option JSNum
deriving DecidableEq

/-- The two chart histories of the response body. -/
structure History where
  inflation : List HistoryPointInflation
  rates : List HistoryPointRates
deriving DecidableEq

/-- One fixed sector-sensitivity row. -/
structure SectorRow where
  sector : String
  sensitivity : ℚ
  status : String
deriving DecidableEq

/-- The fixed FOMC metadata block. -/
structure Fomc where
  nextMeeting : String
  holdProbability : ℚ
  source : String
deriving DecidableEq

/-- The full aggregated response payload (the part that gets cached;
`cached`/`cacheAge` are added per response). -/
structure ResponseData where
  timestamp : String
  lastUpdated : String
  metrics : Metrics
  derived : Derived
  history : History
  sectors : List SectorRow
  fomc : Fomc
deriving DecidableEq

/-- The fixed sector table included verbatim in every response. -/
def sectorsConst : List SectorRow :=
  [⟨"Energy", 0.72, "Strong Position"⟩,
   ⟨"Financials", 0.45, "Favorable"⟩,
   ⟨"Utilities", -0.35, "Slight Pressure"⟩,
   ⟨"Consumer Disc.", -0.65, "Moderate Pressure"⟩,
   ⟨"Technology", -0.85, "Moderate Pressure"⟩]

/-- The fixed FOMC metadata included verbatim in every response. -/
def fomcConst : Fomc := ⟨"Dec 17-18, 2024", 88, "CME FedWatch"⟩

/-- The short month label of an ISO `YYYY-MM-DD` date string, as
`new Date(d).toLocaleDateString` with a short month option produces
for the dates FRED returns (read in UTC; timezone-dependent rendering
is outside this model and no claim depends on the label text). -/
def monthShort (date : String) : String :=
  match (date.toList.drop 5).take 2 with
  | ['0', '1'] => "Jan"
  | ['0', '2'] => "Feb"
  | ['0', '3'] => "Mar"
  | ['0', '4'] => "Apr"
  | ['0', '5'] => "May"
  | ['0', '6'] => "Jun"
  | ['0', '7'] => "Jul"
  | ['0', '8'] => "Aug"
  | ['0', '9'] => "Sep"
  | ['1', '0'] => "Oct"
  | ['1', '1'] => "Nov"
  | ['1', '2'] => "Dec"
  | _ => "Invalid Date"

/-- The five fetch results joined before assembly; `none` is the null
that `fetchFredData` returns on any fetch failure or empty series. -/
structure FetchResults where
  cpiData : Option (List Obs)
  coreCPIData : Option (List Obs)
  fedRateData : Option (List Obs)
  treasury10yData : Option (List Obs)
  unemploymentData : Option (List Obs)
deriving DecidableEq

/-- `a[i].value` on a possibly-null array: a thrown TypeError (null
array or undefined element) becomes an error. -/
def getValue (a : Option (List Obs)) (i : ℕ) : Except String String :=
  match a with
  | none => Except.error "Cannot read properties of null"
  | some l =>
    match l.get? i with
    | some o => Except.ok o.value
    | none => Except.error "Cannot read properties of undefined"

/-- `a[i]?.value` on a possibly-null array: optional chaining guards
the element access but still throws on a null array. -/
def getValueOpt (a : Option (List Obs)) (i : ℕ) : Except String (Option String) :=
  match a with
  | none => Except.error "Cannot read properties of null"
  | some l => Except.ok ((l.get? i).map Obs.value)

/-- `a[i].date` on a possibly-null array, as `getValue`. -/
def getDate (a : Option (List Obs)) (i : ℕ) : Except String String :=
  match a with
  | none => Except.error "Cannot read properties of null"
  | some l =>
    match l.get? i with
    | some o => Except.ok o.date
    | none => Except.error "Cannot read properties of undefined"

/-- The body of the inflation-history map callback: reads
`coreCPIData[5 - idx]` (throwing on a null core series), labels the
point with the item month, and recomputes the year-over-year change on
the trailing slices `cpiData.slice(5 - idx)` and
`coreCPIData.slice(5 - idx)`. -/
def buildInflationPoint (cpiData : List Obs) (coreCPIData : Option (List Obs))
    (idx : ℕ) (item : Obs) : Except String HistoryPointInflation :=
  match coreCPIData with
  | none => Except.error "Cannot read properties of null"
  | some coreList =>
    Except.ok
      { month := monthShort item.date
        cpi := calculateYoYChange (some (cpiData.drop (5 - idx)))
        core :=
          match coreList.get? (5 - idx) with
          | some _ => calculateYoYChange (some (coreList.drop (5 - idx)))
          | none => none }

/-- The body of the rate-history map callback: reads
`treasury10yData[5 - idx]` (throwing on a null treasury series) and
takes the direct parsed values of the item and of that element. -/
def buildRatePoint (treasury10yData : Option (List Obs))
    (idx : ℕ) (item : Obs) : Except String HistoryPointRates :=
  match treasury10yData with
  | none => Except.error "Cannot read properties of null"
  | some treasList =>
    Except.ok
      { month := monthShort item.date
        rate := parseValue (some item.value)
        yield :=
          match treasList.get? (5 - idx) with
          | some ti => parseValue (some ti.value)
          | none => none }

/-- `Array.prototype.map` with the element index, where the callback
may throw: the first error aborts the whole map. -/
def mapIdxExcept (f : ℕ → α → Except String β) : ℕ → List α → Except String (List β)
  | _, [] => Except.ok []
  | i, a :: as =>
    match f i a with
    | Except.error e => Except.error e
    | Except.ok b =>
      match mapIdxExcept f (i + 1) as with
      | Except.error e => Except.error e
      | Except.ok bs => Except.ok (b :: bs)

/-- The pure part of the response assembly, taking the fallibly-read
raw strings as arguments: every arithmetic field of `responseData`
exactly as the source computes it. -/
def buildResponse (timestamp lastUpdated : String) (cpiData : List Obs)
    (coreCPIData : Option (List Obs))
    (fedRate0 : String) (fedRate1 : Option String)
    (treas0 : String) (treas1 : Option String)
    (unemp0 : String) (unemp1 : Option String)
    (cpi0 core0 : String)
    (inflationHistory : List HistoryPointInflation)
    (rateHistory : List HistoryPointRates) : ResponseData :=
  let cpiYoY := calculateYoYChange (some cpiData)
  let cpiMoM := calculateMoMChange (some cpiData)
  let coreCPIYoY := calculateYoYChange coreCPIData
  let fedRateCurrent := parseValue (some fedRate0)
  let fedRatePrevious := parseValue fedRate1
  let treasury10yCurrent := parseValue (some treas0)
  let treasury10yPrevious := parseValue treas1
  let unemploymentCurrent := parseValue (some unemp0)
  let unemploymentPrevious := parseValue unemp1
  let realRate : Option JSNum :=
    match fedRateCurrent, cpiYoY with
    | some (JSNum.num a), some (JSNum.num b) =>
      if a ≠ 0 ∧ b ≠ 0 then some (JSNum.num (toFixed2 (a - b))) else none
    | _, _ => none
  let prevYoY := calculateYoYChange (some (cpiData.drop 1))
  let realRatePreviousArg : Option JSNum :=
    match fedRatePrevious, prevYoY with
    | some (JSNum.num a), some (JSNum.num b) =>
      if a ≠ 0 ∧ b ≠ 0 then some (JSNum.num (a - b)) else none
    | _, _ => none
  { timestamp := timestamp
    lastUpdated := lastUpdated
    metrics :=
      { cpi := { value := cpiYoY, change := cpiMoM, raw := parseValue (some cpi0) }
        coreCPI :=
          { value := coreCPIYoY
            change := calculateMoMChange coreCPIData
            raw := parseValue (some core0) }
        fedRate :=
          { value := fedRateCurrent
            change := calculateChange fedRateCurrent fedRatePrevious }
        treasury10y :=
          { value := treasury10yCurrent
            change := calculateChange treasury10yCurrent treasury10yPrevious }
        unemployment :=
          { value := unemploymentCurrent
            change := calculateChange unemploymentCurrent unemploymentPrevious }
        wageGrowth := { value := some (JSNum.num 4.3), change := some (JSNum.num (-0.2)) }
        realEarningsGrowth :=
          { value :=
              some (match cpiYoY with
                | some (JSNum.num q) =>
                  if q ≠ 0 then JSNum.num (toFixed1 (4.3 - q)) else JSNum.num 0.5
                | _ => JSNum.num 0.5)
            change := some (JSNum.num 0.3) }
        sp500PE := { value := some (JSNum.num 19.2), change := some (JSNum.num 0.4) } }
    derived :=
      { realRate :=
          { value := realRate
            change := calculateChange realRate realRatePreviousArg }
        inflationMomentum := { value := cpiMoM, change := some (JSNum.num 0.2) }
        inflationSurprise :=
          { value :=
              match cpiYoY with
              | some (JSNum.num q) =>
                if q ≠ 0 then JSNum.num (toFixed1 (q - 3.0)) else JSNum.num 0.2
              | _ => JSNum.num 0.2
            expected := 3.0 } }
    history := { inflation := inflationHistory, rates := rateHistory }
    sectors := sectorsConst
    fomc := fomcConst }

/-- The try-block of the handler: throw when either critical series
(price index, policy rate) is null, then perform every fallible read
in source evaluation order, then build the pure response record. -/
def assemble (f : FetchResults) (timestamp : String) : Except String ResponseData :=
  match f.cpiData, f.fedRateData with
  | some cpiData, some fedRateData => do
    let fedRate0 ← getValue (some fedRateData) 0
    let fedRate1 ← getValueOpt (some fedRateData) 1
    let treas0 ← getValue f.treasury10yData 0
    let treas1 ← getValueOpt f.treasury10yData 1
    let unemp0 ← getValue f.unemploymentData 0
    let unemp1 ← getValueOpt f.unemploymentData 1
    let inflationHistory ←
      mapIdxExcept (buildInflationPoint cpiData f.coreCPIData) 0 ((cpiData.take 6).reverse)
    let rateHistory ←
      mapIdxExcept (buildRatePoint f.treasury10yData) 0 ((fedRateData.take 6).reverse)
    let lastUpdated ← getDate (some cpiData) 0
    let cpi0 ← getValue (some cpiData) 0
    let core0 ← getValue f.coreCPIData 0
    Except.ok (buildResponse timestamp lastUpdated cpiData f.coreCPIData fedRate0 fedRate1
      treas0 treas1 unemp0 unemp1 cpi0 core0 inflationHistory rateHistory)
  | _, _ => Except.error "Failed to fetch critical data from FRED"

/-- The cache TTL: fifteen minutes in milliseconds. -/
def CACHE_DURATION : ℤ := 15 * 60 * 1000

/-- The module-level mutable cache slot: the cached payload and the
epoch-millisecond stamp of the last successful fetch. -/
structure CacheState where
  cachedData : Option ResponseData
  lastFetch : ℤ
deriving DecidableEq

/-- The module-load initial cache state. -/
def initialState : CacheState := ⟨none, 0⟩

/-- A response body: a payload with its cache flags, the 405 body, or
a structured `error`/`message` body. -/
inductive Body where
  | payload (d : ResponseData) (cached : Bool) (cacheAge : Option ℤ)
  | methodNotAllowed
  | errorBody (error : String) (message : String)
deriving DecidableEq

/-- An HTTP response: status code and JSON body. -/
structure HttpResponse where
  status : ℕ
  body : Body
deriving DecidableEq

/-- One request to the endpoint: the method, the current time, the
credential visible in the environment, the joined fetch results the
upstream would deliver on this invocation, and the fresh timestamp. -/
structure HandlerInput where
  method : String
  now : ℤ
  apiKey : Option String
  fetched : FetchResults
  timestamp : String
deriving DecidableEq

/-- The cache-miss path of the handler: credential check, then
assemble; on success overwrite the cache and answer 200 fresh, on any
thrown error answer 500 with the structured body, leaving the cache
unchanged. -/
def handlerFetch (st : CacheState) (inp : HandlerInput) : CacheState × HttpResponse :=
  if inp.apiKey = none ∨ inp.apiKey = some "" then
    (st, ⟨500, Body.errorBody "FRED_API_KEY not configured"
      "Add FRED_API_KEY to Vercel environment variables"⟩)
  else
    match assemble inp.fetched inp.timestamp with
    | Except.ok d =>
      ({ cachedData := some d, lastFetch := inp.now },
       ⟨200, Body.payload d false none⟩)
    | Except.error msg =>
      (st, ⟨500, Body.errorBody "Failed to fetch macro data" msg⟩)

/-- The handler: reject non-GET with 405; serve a fresh cache hit with
`cached: true` and the rounded minutes since the last fetch; otherwise
fall through to the fetch path. -/
def handler (st : CacheState) (inp : HandlerInput) : CacheState × HttpResponse :=
  if inp.method ≠ "GET" then (st, ⟨405, Body.methodNotAllowed⟩)
  else
    match st.cachedData with
    | some d =>
      if inp.now - st.lastFetch < CACHE_DURATION then
        (st, ⟨200, Body.payload d true
          (some (mathRound ((inp.now - st.lastFetch : ℚ) / 1000 / 60)))⟩)
      else handlerFetch st inp
    | none => handlerFetch st inp

/-- A sequence of requests against the process-wide cache slot,
starting from a given state and returning the responses in order. -/
def runRequests (st : CacheState) : List HandlerInput → List HttpResponse
  | [] => []
  | inp :: rest =>
    let step := handler st inp
    step.2 :: runRequests step.1 rest

/-- JavaScript falsiness on a nullable number: null, NaN and zero are
falsy.  Used by the spec-side reformulations below. -/
def jsFalsy : Option JSNum → Bool
  | none => true
  | some JSNum.nan => true
  | some (JSNum.num q) => q == 0

/-- The amended claim C8 stated in its own words, to be compared with
`calculateChange`: null exactly when either input is falsy (null, zero
or NaN), otherwise the difference rounded to two decimals. -/
def changeSpec (current previous : Option JSNum) : Option JSNum :=
  if jsFalsy current || jsFalsy previous then none
  else
    match current, previous with
    | some (JSNum.num c), some (JSNum.num p) => some (JSNum.num (toFixed2 (c - p)))
    | _, _ => none

/-- The amended claim C3 stated in its own words, to be compared with
`calculateYoYChange`: null when fewer than 13 observations are
present, either endpoint parses to null or NaN, or either endpoint
value is exactly zero; otherwise the percentage change rounded to two
decimals. -/
def yoySpec (l : List Obs) : Option JSNum :=
  let current := parseValue ((l.get? 0).map Obs.value)
  let yearAgo := parseValue ((l.get? 12).map Obs.value)
  if l.length < 13 ∨ current = none ∨ yearAgo = none ∨
      current = some (JSNum.num 0) ∨ yearAgo = some (JSNum.num 0) ∨
      current = some JSNum.nan ∨ yearAgo = some JSNum.nan then none
  else
    match current, yearAgo with
    | some (JSNum.num c), some (JSNum.num y) =>
      some (JSNum.num (toFixed2 ((c - y) / y * 100)))
    | _, _ => none

/-- A one-observation series with value 1, for concrete runs. -/
def obs1 : Obs := ⟨"2024-01-01", "1"⟩

/-- An observation with a given raw value. -/
def obsV (v : String) : Obs := ⟨"2024-01-01", v⟩

/-- Fetch results where every series delivered a single observation
with value 1; assembly succeeds on them. -/
def goodFetch : FetchResults :=
  ⟨some [obs1], some [obs1], some [obs1], some [obs1], some [obs1]⟩

/-- The payload the endpoint assembles from `goodFetch` with
timestamp `"t0"`, written out field by field. -/
def dSample : ResponseData :=
  { timestamp := "t0"
    lastUpdated := "2024-01-01"
    metrics :=
      { cpi := { value := none, change := none, raw := some (JSNum.num 1) }
        coreCPI := { value := none, change := none, raw := some (JSNum.num 1) }
        fedRate := { value := some (JSNum.num 1), change := none }
        treasury10y := { value := some (JSNum.num 1), change := none }
        unemployment := { value := some (JSNum.num 1), change := none }
        wageGrowth := { value := some (JSNum.num 4.3), change := some (JSNum.num (-0.2)) }
        realEarningsGrowth := { value := some (JSNum.num 0.5), change := some (JSNum.num 0.3) }
        sp500PE := { value := some (JSNum.num 19.2), change := some (JSNum.num 0.4) } }
    derived :=
      { realRate := { value := none, change := none }
        inflationMomentum := { value := none, change := some (JSNum.num 0.2) }
        inflationSurprise := { value := JSNum.num 0.2, expected := 3.0 } }
    history :=
      { inflation := [{ month := "Jan", cpi := none, core := none }]
        rates := [{ month := "Jan", rate := some (JSNum.num 1), yield := none }] }
    sectors := sectorsConst
    fomc := fomcConst }

/-- The thirteen-observation CPI series of the end-to-end example in
the spec: newest value 312.3, twelve months earlier 301.8. -/
def cpiExample : List Obs :=
  obsV "312.3" :: (List.replicate 11 (obsV "310") ++ [obsV "301.8"])

/-- A thirteen-observation series whose latest value is exactly zero
and whose year-ago value is 5. -/
def cpiZeroHead : List Obs :=
  obsV "0" :: (List.replicate 11 (obsV "310") ++ [obsV "5"])

/-- Fetch results where only the CPI series failed: one of the two
critical series is missing, the other present. -/
def critHalfFetch : FetchResults :=
  ⟨none, some [obs1], some [obs1], some [obs1], some [obs1]⟩

/-- Fetch results where only the non-critical core-CPI series
failed. -/
def coreNullFetch : FetchResults :=
  ⟨some [obs1], none, some [obs1], some [obs1], some [obs1]⟩

/-- A well-formed GET request carrying the core-CPI fetch failure. -/
def coreNullInput : HandlerInput := ⟨"GET", 0, some "key", coreNullFetch, "t"⟩

/-- A cache state holding a previously assembled payload fetched at
epoch 0. -/
def staleState : CacheState := ⟨some dSample, 0⟩

/-- A GET request arriving exactly when the cached entry turns stale,
whose critical CPI fetch fails. -/
def c1Input : HandlerInput := ⟨"GET", 900000, some "key", critHalfFetch, "t1"⟩

/-- A GET request with no credential in the environment. -/
def noKeyInputA : HandlerInput := ⟨"GET", 0, none, goodFetch, "t"⟩

/-- A later GET request with an empty-string credential (also falsy
in the source). -/
def noKeyInputB : HandlerInput := ⟨"GET", 60000, some "", goodFetch, "t2"⟩

/-- The first request of the idempotence pair: a cold-cache GET. -/
def cacheInput1 : HandlerInput := ⟨"GET", 0, some "key", goodFetch, "t0"⟩

/-- The second request of the idempotence pair: five minutes later,
within the TTL. -/
def cacheInput2 : HandlerInput := ⟨"GET", 300000, some "key", goodFetch, "t9"⟩

/-- A thirteen-observation CPI series whose latest and year-ago values
are equal, so its year-over-year change is exactly zero. -/
def cpiFlat : List Obs := List.replicate 13 (obsV "100")

/-- Fetch results with a flat CPI series and a 5.33 policy rate: the
assembled response has a non-null zero CPI value and a null real
rate. -/
def flatFetch : FetchResults :=
  ⟨some cpiFlat, some [obs1], some [obsV "5.33"], some [obs1], some [obs1]⟩

/-- The spec example series: CPI year-over-year 3.2 against a 5.33
policy rate. -/
def exampleFetch : FetchResults :=
  ⟨some (obsV "103.2" :: (List.replicate 11 (obsV "200") ++ [obsV "100"])),
   some [obs1], some [obsV "5.33"], some [obs1], some [obs1]⟩

/-- Decomposition of a successful monadic bind over `Except`. -/
theorem bindOk {α β : Type} {x : Except String α} {f : α → Except String β} {b : β}
    (h : x >>= f = Except.ok b) : ∃ a, x = Except.ok a ∧ f a = Except.ok b := by
  cases x with
  | ok a => exact ⟨a, rfl, h⟩
  | error e => exact absurd h (by simp [Bind.bind, Except.bind])

/-- A successful assembly implies every one of the five series was
non-null: the two critical ones by the explicit guard, the other
three because the assembler indexes into them unguarded. -/
theorem assembleOkSeries {f : FetchResults} {ts : String} {d : ResponseData}
    (h : assemble f ts = Except.ok d) :
    f.cpiData ≠ none ∧ f.fedRateData ≠ none ∧ f.coreCPIData ≠ none ∧
    f.treasury10yData ≠ none ∧ f.unemploymentData ≠ none := by
  obtain ⟨cpi, core, fed, treas, unemp⟩ := f
  rcases cpi with _ | cl
  · exact absurd h (by simp [assemble])
  · rcases fed with _ | fl
    · exact absurd h (by simp [assemble])
    · obtain ⟨v1, h1, h⟩ := bindOk h
      obtain ⟨v2, h2, h⟩ := bindOk h
      obtain ⟨v3, h3, h⟩ := bindOk h
      obtain ⟨v4, h4, h⟩ := bindOk h
      obtain ⟨v5, h5, h⟩ := bindOk h
      obtain ⟨v6, h6, h⟩ := bindOk h
      obtain ⟨v7, h7, h⟩ := bindOk h
      obtain ⟨v8, h8, h⟩ := bindOk h
      obtain ⟨v9, h9, h⟩ := bindOk h
      obtain ⟨v10, h10, h⟩ := bindOk h
      obtain ⟨v11, h11, h⟩ := bindOk h
      refine ⟨by simp, by simp, ?_, ?_, ?_⟩
      · rcases hk : core with _ | kl
        · rw [hk] at h11; exact absurd h11 (by simp [getValue])
        · simp
      · rcases ht : treas with _ | tl
        · rw [ht] at h3; exact absurd h3 (by simp [getValue])
        · simp
      · rcases hu : unemp with _ | ul
        · rw [hu] at h5; exact absurd h5 (by simp [getValue])
        · simp

/-- When either critical series is null the assembler throws the
critical-data error before anything else. -/
theorem assembleCriticalError (f : FetchResults) (ts : String)
    (h : f.cpiData = none ∨ f.fedRateData = none) :
    assemble f ts = Except.error "Failed to fetch critical data from FRED" := by
  obtain ⟨cpi, core, fed, treas, unemp⟩ := f
  rcases cpi with _ | cl
  · rfl
  · rcases fed with _ | fl
    · rfl
    · simp at h

/-- Claim C3 as stated is false: this thirteen-observation list meets
none of the claim's null conditions (length is 13, both endpoint
values parse to numbers, the year-ago value 5 is nonzero), so the
claim demands the rounded value of `(0 - 5) / 5 * 100`, yet
`calculateYoYChange` returns null, because the source also treats a
zero latest value as falsy. -/
theorem C3_counterexample :
    calculateYoYChange (some cpiZeroHead) = none ∧
    ¬cpiZeroHead.length < 13 ∧
    parseValue ((cpiZeroHead.get? 0).map Obs.value) = some (JSNum.num 0) ∧
    parseValue ((cpiZeroHead.get? 12).map Obs.value) = some (JSNum.num 5) ∧
    some (JSNum.num (toFixed2 ((0 - 5) / 5 * 100))) ≠ (none : Option JSNum) := by
  refine ⟨?_, ?_, ?_, ?_, ?_⟩ <;> with_unfolding_all decide

/-- Claim C3 amended: `calculateYoYChange` returns null when fewer
than 13 observations are present, when either endpoint value (index 0
or index 12) is null or NaN, or when either endpoint value — not only
the one twelve periods back — is exactly zero; otherwise it returns
`(current - yearAgo) / yearAgo * 100` rounded to two decimals, and on
the spec's example list it returns 3.48. -/
theorem C3_yoy_change_characterization :
    (∀ l : List Obs, calculateYoYChange (some l) = yoySpec l) ∧
    calculateYoYChange (some cpiExample) = some (JSNum.num 3.48) := by
  refine ⟨fun l => ?_, by with_unfolding_all rfl⟩
  simp only [calculateYoYChange, yoySpec]
  by_cases hl : l.length < 13
  · simp [hl]
  · rcases hcur : parseValue ((l.get? 0).map Obs.value) with _ | c
    · simp [hl, hcur]
    · rcases hya : parseValue ((l.get? 12).map Obs.value) with _ | y
      · rcases c with q | _ <;> simp [hl, hcur, hya]
      · rcases c with q | _ <;> rcases y with p | _ <;>
          simp only [hl, hcur, hya, if_false] <;>
          first
          | (by_cases hq : q = 0 <;> by_cases hp : p = 0 <;> simp [hq, hp])
          | simp

/-- Claim C7 as stated is false: on the non-parseable string `"abc"`,
`parseValue` does not fail with `MalformedValue`; it silently returns
NaN (the result of JavaScript `parseFloat`). -/
theorem C7_counterexample : parseValue (some "abc") = some JSNum.nan := by
  with_unfolding_all rfl

/-- Claim C7 amended: `parseValue` maps exactly the dot sentinel and
the empty string to null; every other string goes through JavaScript
`parseFloat`, so `"5.33"` maps to 5.33 (and `"1e2"` to 100), while a
non-parseable string silently yields NaN rather than failing. -/
theorem C7_parse_value_characterization :
    (∀ s : String, parseValue (some s) = none ↔ s = "" ∨ s = ".") ∧
    parseValue (some "5.33") = some (JSNum.num 5.33) ∧
    parseValue (some "1e2") = some (JSNum.num 100) ∧
    parseValue none = none := by
  refine ⟨fun s => ?_, by with_unfolding_all rfl, by with_unfolding_all rfl, rfl⟩
  by_cases h : s = "" ∨ s = "."
  · simp [parseValue, h]
  · simp [parseValue, h]

/-- Claim C8 as stated is false at the non-null pair (0, 5): the
claim demands the rounded difference `-5`, yet `calculateChange`
returns null, because the source treats a zero input as falsy. -/
theorem C8_counterexample :
    calculateChange (some (JSNum.num 0)) (some (JSNum.num 5)) = none ∧
    some (JSNum.num (toFixed2 (0 - 5))) ≠ (none : Option JSNum) := by
  refine ⟨?_, ?_⟩ <;> with_unfolding_all decide

/-- Claim C8 amended: `calculateChange` returns null exactly when
either input is falsy — null, NaN or zero — and otherwise returns
`current - previous` rounded to two decimal places. -/
theorem C8_change_characterization :
    (∀ current previous : Option JSNum,
      calculateChange current previous = changeSpec current previous) ∧
    calculateChange (some (JSNum.num 7.5)) (some (JSNum.num 5.25))
      = some (JSNum.num 2.25) := by
  refine ⟨fun current previous => ?_, by with_unfolding_all rfl⟩
  rcases current with _ | (q | _) <;> rcases previous with _ | (p | _) <;>
    simp only [calculateChange, changeSpec, jsFalsy] <;>
    first
    | rfl
    | (by_cases hq : q = 0 <;> by_cases hp : p = 0 <;> simp [hq, hp])
    | simp

/-- Claim C4 as stated is false: assembly succeeds on series carrying
a single observation each, and the resulting successful response has
history arrays of one point, not six — the source slices at most six
points from whatever the provider returned and never pads. -/
theorem C4_counterexample :
    assemble goodFetch "t0" = Except.ok dSample ∧
    dSample.history.inflation.length = 1 ∧
    dSample.history.rates.length = 1 := by
  refine ⟨?_, rfl, rfl⟩
  with_unfolding_all rfl

/-- Claim C4 amended: in every successful response over series that
each carry at least six observations (two suffice for unemployment) —
the normal case, since the fetch requests thirteen — each history
array holds exactly the six most recent monthly points, oldest first,
and every point recomputes the corresponding flat-metric rule on the
trailing window ending at that month: the year-over-year rule on the
CPI and core suffixes beginning at that month, and the direct parsed
values of that month's policy-rate and treasury observations.  On
shorter series the response still succeeds but the history arrays
have correspondingly fewer points. -/
theorem C4_history_windows
    (a0 a1 a2 a3 a4 a5 : Obs) (ar : List Obs)
    (k0 k1 k2 k3 k4 k5 : Obs) (kr : List Obs)
    (r0 r1 r2 r3 r4 r5 : Obs) (rr : List Obs)
    (t0 t1 t2 t3 t4 t5 : Obs) (tr : List Obs)
    (u0 u1 : Obs) (ur : List Obs) (ts : String) :
    ∃ d, assemble
        ⟨some (a0 :: a1 :: a2 :: a3 :: a4 :: a5 :: ar),
         some (k0 :: k1 :: k2 :: k3 :: k4 :: k5 :: kr),
         some (r0 :: r1 :: r2 :: r3 :: r4 :: r5 :: rr),
         some (t0 :: t1 :: t2 :: t3 :: t4 :: t5 :: tr),
         some (u0 :: u1 :: ur)⟩ ts = Except.ok d ∧
      d.metrics.cpi.value
        = calculateYoYChange (some (a0 :: a1 :: a2 :: a3 :: a4 :: a5 :: ar)) ∧
      d.metrics.coreCPI.value
        = calculateYoYChange (some (k0 :: k1 :: k2 :: k3 :: k4 :: k5 :: kr)) ∧
      d.metrics.fedRate.value = parseValue (some r0.value) ∧
      d.metrics.treasury10y.value = parseValue (some t0.value) ∧
      d.history.inflation =
        [⟨monthShort a5.date, calculateYoYChange (some (a5 :: ar)),
          calculateYoYChange (some (k5 :: kr))⟩,
         ⟨monthShort a4.date, calculateYoYChange (some (a4 :: a5 :: ar)),
          calculateYoYChange (some (k4 :: k5 :: kr))⟩,
         ⟨monthShort a3.date, calculateYoYChange (some (a3 :: a4 :: a5 :: ar)),
          calculateYoYChange (some (k3 :: k4 :: k5 :: kr))⟩,
         ⟨monthShort a2.date, calculateYoYChange (some (a2 :: a3 :: a4 :: a5 :: ar)),
          calculateYoYChange (some (k2 :: k3 :: k4 :: k5 :: kr))⟩,
         ⟨monthShort a1.date, calculateYoYChange (some (a1 :: a2 :: a3 :: a4 :: a5 :: ar)),
          calculateYoYChange (some (k1 :: k2 :: k3 :: k4 :: k5 :: kr))⟩,
         ⟨monthShort a0.date,
          calculateYoYChange (some (a0 :: a1 :: a2 :: a3 :: a4 :: a5 :: ar)),
          calculateYoYChange (some (k0 :: k1 :: k2 :: k3 :: k4 :: k5 :: kr))⟩] ∧
      d.history.rates =
        [⟨monthShort r5.date, parseValue (some r5.value), parseValue (some t5.value)⟩,
         ⟨monthShort r4.date, parseValue (some r4.value), parseValue (some t4.value)⟩,
         ⟨monthShort r3.date, parseValue (some r3.value), parseValue (some t3.value)⟩,
         ⟨monthShort r2.date, parseValue (some r2.value), parseValue (some t2.value)⟩,
         ⟨monthShort r1.date, parseValue (some r1.value), parseValue (some t1.value)⟩,
         ⟨monthShort r0.date, parseValue (some r0.value), parseValue (some t0.value)⟩] := by
  refine ⟨_, rfl, ?_, ?_, ?_, ?_, ?_, ?_⟩ <;> with_unfolding_all rfl

/-- Claim C9 as stated is false: `flatFetch` assembles successfully
with a non-null CPI year-over-year value of exactly 0 and a policy
rate of 5.33, yet the derived real rate is null instead of the claimed
5.33 − 0 = 5.33, because the source treats the zero input as falsy. -/
theorem C9_counterexample :
    (assemble flatFetch "t").map (fun d => d.metrics.cpi.value)
      = Except.ok (some (JSNum.num 0)) ∧
    (assemble flatFetch "t").map (fun d => d.metrics.fedRate.value)
      = Except.ok (some (JSNum.num 5.33)) ∧
    (assemble flatFetch "t").map (fun d => d.derived.realRate.value)
      = Except.ok none := by
  refine ⟨?_, ?_, ?_⟩ <;> with_unfolding_all rfl

/-- Claim C9 amended: in every successful response the derived real
rate equals the policy-rate value minus the CPI year-over-year value
rounded to two decimals when both are truthy numbers (non-null,
nonzero, not NaN), and is null when either is null, NaN or exactly
zero; on the spec's example (policy rate 5.33, CPI year-over-year
3.2) it is 2.13. -/
theorem C9_real_rate_formula
    (a0 a1 a2 a3 a4 a5 : Obs) (ar : List Obs)
    (k0 k1 k2 k3 k4 k5 : Obs) (kr : List Obs)
    (r0 r1 r2 r3 r4 r5 : Obs) (rr : List Obs)
    (t0 t1 t2 t3 t4 t5 : Obs) (tr : List Obs)
    (u0 u1 : Obs) (ur : List Obs) (ts : String) :
    ∃ d, assemble
        ⟨some (a0 :: a1 :: a2 :: a3 :: a4 :: a5 :: ar),
         some (k0 :: k1 :: k2 :: k3 :: k4 :: k5 :: kr),
         some (r0 :: r1 :: r2 :: r3 :: r4 :: r5 :: rr),
         some (t0 :: t1 :: t2 :: t3 :: t4 :: t5 :: tr),
         some (u0 :: u1 :: ur)⟩ ts = Except.ok d ∧
      d.metrics.fedRate.value = parseValue (some r0.value) ∧
      d.metrics.cpi.value
        = calculateYoYChange (some (a0 :: a1 :: a2 :: a3 :: a4 :: a5 :: ar)) ∧
      d.derived.realRate.value =
        (match parseValue (some r0.value),
               calculateYoYChange (some (a0 :: a1 :: a2 :: a3 :: a4 :: a5 :: ar)) with
         | some (JSNum.num a), some (JSNum.num b) =>
           if a ≠ 0 ∧ b ≠ 0 then some (JSNum.num (toFixed2 (a - b))) else none
         | _, _ => none) ∧
      (assemble exampleFetch "te").map (fun x => x.derived.realRate.value)
        = Except.ok (some (JSNum.num 2.13)) := by
  refine ⟨_, rfl, ?_, ?_, ?_, ?_⟩ <;> with_unfolding_all rfl

/-- Claim C10 (confirmed): in every successful response whose CPI
year-over-year value is null, the endpoint substitutes fixed numeric
defaults instead of null: the inflation-surprise value is the
constant 0.2 and the real-earnings-growth value is the constant
0.5. -/
theorem C10_null_cpi_defaults
    (a0 a1 a2 a3 a4 a5 : Obs) (ar : List Obs)
    (k0 k1 k2 k3 k4 k5 : Obs) (kr : List Obs)
    (r0 r1 r2 r3 r4 r5 : Obs) (rr : List Obs)
    (t0 t1 t2 t3 t4 t5 : Obs) (tr : List Obs)
    (u0 u1 : Obs) (ur : List Obs) (ts : String)
    (h : calculateYoYChange (some (a0 :: a1 :: a2 :: a3 :: a4 :: a5 :: ar)) = none) :
    ∃ d, assemble
        ⟨some (a0 :: a1 :: a2 :: a3 :: a4 :: a5 :: ar),
         some (k0 :: k1 :: k2 :: k3 :: k4 :: k5 :: kr),
         some (r0 :: r1 :: r2 :: r3 :: r4 :: r5 :: rr),
         some (t0 :: t1 :: t2 :: t3 :: t4 :: t5 :: tr),
         some (u0 :: u1 :: ur)⟩ ts = Except.ok d ∧
      d.metrics.cpi.value = none ∧
      d.derived.inflationSurprise.value = JSNum.num 0.2 ∧
      d.metrics.realEarningsGrowth.value = some (JSNum.num 0.5) := by
  refine ⟨_, rfl, h, ?_, ?_⟩
  · dsimp only [buildResponse]
    rw [h]
  · dsimp only [buildResponse]
    rw [h]

/-- Witness for C10: six one-observation months per series (too few
for a year-over-year value, so the CPI value is null) assemble
successfully with the 0.2 and 0.5 defaults in place. -/
theorem C10_witness :
    ∃ d, assemble
        ⟨some (obs1 :: obs1 :: obs1 :: obs1 :: obs1 :: obs1 :: []),
         some (obs1 :: obs1 :: obs1 :: obs1 :: obs1 :: obs1 :: []),
         some (obs1 :: obs1 :: obs1 :: obs1 :: obs1 :: obs1 :: []),
         some (obs1 :: obs1 :: obs1 :: obs1 :: obs1 :: obs1 :: []),
         some (obs1 :: obs1 :: [])⟩ "t" = Except.ok d ∧
      d.metrics.cpi.value = none ∧
      d.derived.inflationSurprise.value = JSNum.num 0.2 ∧
      d.metrics.realEarningsGrowth.value = some (JSNum.num 0.5) :=
  C10_null_cpi_defaults obs1 obs1 obs1 obs1 obs1 obs1 [] obs1 obs1 obs1 obs1 obs1 obs1 []
    obs1 obs1 obs1 obs1 obs1 obs1 [] obs1 obs1 obs1 obs1 obs1 obs1 [] obs1 obs1 [] "t"
    (by with_unfolding_all decide)

/-- A GET request that does not hit a fresh cache entry falls through
to the fetch path. -/
theorem handlerMiss (st : CacheState) (inp : HandlerInput) (hm : inp.method = "GET")
    (hmiss : st.cachedData = none ∨ CACHE_DURATION ≤ inp.now - st.lastFetch) :
    handler st inp = handlerFetch st inp := by
  rcases hcd : st.cachedData with _ | d
  · simp [handler, hm, hcd]
  · rcases hmiss with hnone | hle
    · rw [hcd] at hnone; simp at hnone
    · simp [handler, hm, hcd, not_lt.mpr hle]

/-- A GET request hitting a fresh cache entry is answered from the
cache with the rounded minutes since the last fetch. -/
theorem handlerHit (st : CacheState) (inp : HandlerInput) (d : ResponseData)
    (hm : inp.method = "GET") (hd : st.cachedData = some d)
    (hfresh : inp.now - st.lastFetch < CACHE_DURATION) :
    handler st inp =
      (st, ⟨200, Body.payload d true
        (some (mathRound ((inp.now - st.lastFetch : ℚ) / 1000 / 60)))⟩) := by
  simp [handler, hm, hd, hfresh]

/-- With a present credential and a successful assembly, the fetch
path overwrites the cache and answers 200 fresh. -/
theorem handlerFetchOk (st : CacheState) (inp : HandlerInput) (d : ResponseData)
    (hkey : ¬(inp.apiKey = none ∨ inp.apiKey = some ""))
    (hok : assemble inp.fetched inp.timestamp = Except.ok d) :
    handlerFetch st inp = (⟨some d, inp.now⟩, ⟨200, Body.payload d false none⟩) := by
  simp [handlerFetch, hkey, hok]

/-- With a present credential and a failed assembly, the fetch path
answers 500 with the structured error body and leaves the cache
unchanged. -/
theorem handlerFetchErr (st : CacheState) (inp : HandlerInput) (msg : String)
    (hkey : ¬(inp.apiKey = none ∨ inp.apiKey = some ""))
    (herr : assemble inp.fetched inp.timestamp = Except.error msg) :
    handlerFetch st inp = (st, ⟨500, Body.errorBody "Failed to fetch macro data" msg⟩) := by
  simp [handlerFetch, hkey, herr]

/-- A GET request on a cold cache with an absent or empty credential
is answered 500 with the configuration body, leaving the state
unchanged. -/
theorem handlerNoKey (st : CacheState) (inp : HandlerInput)
    (hm : inp.method = "GET") (hcd : st.cachedData = none)
    (hkey : inp.apiKey = none ∨ inp.apiKey = some "") :
    handler st inp =
      (st, ⟨500, Body.errorBody "FRED_API_KEY not configured"
        "Add FRED_API_KEY to Vercel environment variables"⟩) := by
  rw [handlerMiss st inp hm (Or.inl hcd)]
  unfold handlerFetch
  rw [if_pos hkey]

/-- Claim C1 as stated is false: with a stale cached payload in the
slot and a failing critical CPI fetch, the endpoint answers 500 with
the error body instead of the claimed 200 with the cached payload. -/
theorem C1_counterexample :
    staleState.cachedData = some dSample ∧
    (handler staleState c1Input).2 =
      ⟨500, Body.errorBody "Failed to fetch macro data"
        "Failed to fetch critical data from FRED"⟩ := by
  refine ⟨rfl, ?_⟩
  with_unfolding_all rfl

/-- Claim C1 amended: when the critical series fetch fails on a GET
request that does not hit a fresh cache entry, the endpoint responds
500 with the structured error body and leaves the cache unchanged —
a stale cached payload is never served; a cached payload is only
served while fresh, in which case no fetch happens at all. -/
theorem C1_critical_failure_responds_500 (st : CacheState) (inp : HandlerInput)
    (hm : inp.method = "GET")
    (hmiss : st.cachedData = none ∨ CACHE_DURATION ≤ inp.now - st.lastFetch)
    (hkey : ¬(inp.apiKey = none ∨ inp.apiKey = some ""))
    (hcrit : inp.fetched.cpiData = none ∨ inp.fetched.fedRateData = none) :
    handler st inp =
      (st, ⟨500, Body.errorBody "Failed to fetch macro data"
        "Failed to fetch critical data from FRED"⟩) := by
  rw [handlerMiss st inp hm hmiss,
    handlerFetchErr st inp _ hkey (assembleCriticalError inp.fetched inp.timestamp hcrit)]

/-- Witness for C1: the concrete stale-cache state and failing-CPI
request of the counterexample, pushed through the amended theorem. -/
theorem C1_witness :
    handler staleState c1Input =
      (staleState, ⟨500, Body.errorBody "Failed to fetch macro data"
        "Failed to fetch critical data from FRED"⟩) :=
  C1_critical_failure_responds_500 staleState c1Input rfl
    (Or.inr (by with_unfolding_all decide)) (by with_unfolding_all decide) (Or.inl rfl)

/-- Claim C2 as stated is false twice over: the assembler raises the
critical-data error when only one critical series (CPI) is missing
while the policy rate is present, and a fetch failure of the
non-critical core-CPI series makes the whole request answer 500
instead of a 200 with a null-valued entry. -/
theorem C2_counterexample :
    assemble critHalfFetch "t" = Except.error "Failed to fetch critical data from FRED" ∧
    (handler initialState coreNullInput).2.status = 500 := by
  refine ⟨?_, ?_⟩ <;> with_unfolding_all rfl

/-- Claim C2 amended: the assembler fails with the critical-data
error when either critical series (price index, policy rate) is
unavailable, and a fetch failure of any other series (core CPI,
10-year yield, unemployment) also fails the whole request — the
assembler throws when indexing the null series — rather than
degrading to a null-valued entry in a 200 response. -/
theorem C2_failure_containment (f : FetchResults) (ts : String) :
    ((f.cpiData = none ∨ f.fedRateData = none) →
      assemble f ts = Except.error "Failed to fetch critical data from FRED") ∧
    ((f.coreCPIData = none ∨ f.treasury10yData = none ∨ f.unemploymentData = none) →
      ∀ d, assemble f ts ≠ Except.ok d) := by
  refine ⟨fun h => assembleCriticalError f ts h, fun h d hok => ?_⟩
  have hs := assembleOkSeries hok
  rcases h with h | h | h
  · exact hs.2.2.1 h
  · exact hs.2.2.2.1 h
  · exact hs.2.2.2.2 h

/-- Witness for C2: the amended theorem applied to the concrete
half-critical and null-core fetch results. -/
theorem C2_witness :
    assemble critHalfFetch "t" = Except.error "Failed to fetch critical data from FRED" ∧
    assemble coreNullFetch "t" ≠ Except.ok dSample :=
  ⟨(C2_failure_containment critHalfFetch "t").1 (Or.inl rfl),
   (C2_failure_containment coreNullFetch "t").2 (Or.inl rfl) dSample⟩

/-- Claim C5 (confirmed): from process start, every GET request made
while the credential is absent (or empty, also falsy) is answered 500
with the structured configuration body.  The cache check precedes the
credential check in the source, but with the credential absent for
the process lifetime no entry can ever be cached, so the error is
never masked by the cache. -/
theorem C5_missing_credential_500 (inputs : List HandlerInput)
    (hall : ∀ inp ∈ inputs,
      inp.method = "GET" ∧ (inp.apiKey = none ∨ inp.apiKey = some "")) :
    runRequests initialState inputs =
      inputs.map fun _ =>
        ⟨500, Body.errorBody "FRED_API_KEY not configured"
          "Add FRED_API_KEY to Vercel environment variables"⟩ := by
  induction inputs with
  | nil => rfl
  | cons inp rest ih =>
    obtain ⟨hm, hk⟩ := hall inp (List.mem_cons_self inp rest)
    have h1 := handlerNoKey initialState inp hm rfl hk
    simp only [runRequests, h1, List.map]
    rw [ih fun i hi => hall i (List.mem_cons_of_mem inp hi)]

/-- Witness for C5: two concrete credentialless GET requests are both
answered with the configuration error. -/
theorem C5_witness :
    runRequests initialState [noKeyInputA, noKeyInputB] =
      [⟨500, Body.errorBody "FRED_API_KEY not configured"
          "Add FRED_API_KEY to Vercel environment variables"⟩,
       ⟨500, Body.errorBody "FRED_API_KEY not configured"
          "Add FRED_API_KEY to Vercel environment variables"⟩] := by
  have h := C5_missing_credential_500 [noKeyInputA, noKeyInputB]
    (by with_unfolding_all decide)
  rw [h]
  rfl

/-- Claim C6 (confirmed): a GET pair in one TTL window — the first on
a cache miss with a successful assembly, the second within fifteen
minutes — returns the very same payload record both times (identical
metrics, derived and history fields by construction), the first with
`cached: false`, the second served from the cache with `cached: true`
and `cacheAge` the elapsed time rounded to whole minutes.  The second
request's own fetch results are never consulted. -/
theorem C6_cache_idempotence (st : CacheState) (inp1 inp2 : HandlerInput) (d : ResponseData)
    (h1m : inp1.method = "GET") (h2m : inp2.method = "GET")
    (hmiss : st.cachedData = none ∨ CACHE_DURATION ≤ inp1.now - st.lastFetch)
    (hkey : ¬(inp1.apiKey = none ∨ inp1.apiKey = some ""))
    (hok : assemble inp1.fetched inp1.timestamp = Except.ok d)
    (hwin : inp2.now - inp1.now < CACHE_DURATION) :
    runRequests st [inp1, inp2] =
      [⟨200, Body.payload d false none⟩,
       ⟨200, Body.payload d true
         (some (mathRound ((inp2.now - inp1.now : ℚ) / 1000 / 60)))⟩] := by
  have h1 : handler st inp1 = (⟨some d, inp1.now⟩, ⟨200, Body.payload d false none⟩) := by
    rw [handlerMiss st inp1 h1m hmiss, handlerFetchOk st inp1 d hkey hok]
  have h2 := handlerHit ⟨some d, inp1.now⟩ inp2 d h2m rfl hwin
  simp only [runRequests, h1, h2]

/-- Witness for C6: a concrete cold-cache GET followed five minutes
later by a second GET returns the same sample payload twice, fresh
then cached with a five-minute age. -/
theorem C6_witness :
    runRequests initialState [cacheInput1, cacheInput2] =
      [⟨200, Body.payload dSample false none⟩,
       ⟨200, Body.payload dSample true (some 5)⟩] := by
  have h := C6_cache_idempotence initialState cacheInput1 cacheInput2 dSample rfl rfl
    (Or.inl rfl) (by with_unfolding_all decide) (by with_unfolding_all rfl)
    (by with_unfolding_all decide)
  rw [h]
  with_unfolding_all decide

end Aggregator

